import Mathlib

/-!
Verification development for `apitess/parallels.py` (the `/parallels/`
family of endpoints of the apitess job service).

The embedding models the module's three request handlers —
`submit_search`, `retrieve_status` and `retrieve_results` — as pure
functions over explicit state:

* decoded JSON request bodies are `JsValue` / association lists;
* the Store (`flask.g.db`, an external collaborator) is a `Database`
  record of typed entity lists; its `find` calls become list filters;
* the shared bounded job queue (`flask.g.searcher`, external) is a
  `Searcher` whose non-blocking `queue_search` either appends a job or
  reports `queue.Full` (here: `none`);
* `uuid.uuid4().hex` becomes an explicit `results_id` parameter;
* uncaught Python exceptions become the `Outcome.crash` constructor.
-/

namespace Apitess

/-- JSON-like values, as decoded by `flask.request.get_json` from a request
body.  Numbers are modelled as integers (no claim involves non-integral
numerics). -/
inductive JsValue where
  | str : String → JsValue
  | num : Int → JsValue
  | bool : Bool → JsValue
  | null : JsValue
  | arr : List JsValue → JsValue
  | obj : List (String × JsValue) → JsValue

/-- Python dict lookup `o[k]` / membership, over a JSON object modelled as an
association list; `find?` returns the first binding, matching dict semantics
for well-formed (duplicate-free) decoded JSON. -/
def jget (o : List (String × JsValue)) (k : String) : Option JsValue :=
  match o.find? (fun p => p.1 == k) with
  | some p => some p.2
  | none => none

/-- Python `k in o` for a dict `o`. -/
def jhas (o : List (String × JsValue)) (k : String) : Bool :=
  (jget o k).isSome

/-- `o[k]` at a point where the source has already established `k in o`;
the `null` default is never reached in such positions. -/
def jgetD (o : List (String × JsValue)) (k : String) : JsValue :=
  (jget o k).getD JsValue.null

/-- Python equality of a decoded JSON value with a string literal
(`units != 'line'` etc.); a non-string value is never equal to a string. -/
def isStrEq (v : JsValue) (s : String) : Bool :=
  match v with
  | JsValue.str t => t == s
  | _ => false

mutual

/-- Python `str()` of a decoded JSON value, as interpolated by
`'...'.format(...)` into error messages.  `str` of a string is the string
itself, which is the only case exercised by any theorem below; container
rendering is simplified (elements rendered with `pyStr`, not `repr`). -/
def pyStr : JsValue → String
  | JsValue.str s => s
  | JsValue.num n => toString n
  | JsValue.bool true => "True"
  | JsValue.bool false => "False"
  | JsValue.null => "None"
  | JsValue.arr l => "[" ++ pyStrArr l ++ "]"
  | JsValue.obj l => "\x7b" ++ pyStrObj l ++ "\x7d"

/-- Comma-joined rendering of list elements. -/
def pyStrArr : List JsValue → String
  | [] => ""
  | [v] => pyStr v
  | v :: vs => pyStr v ++ ", " ++ pyStrArr vs

/-- Comma-joined rendering of dict entries. -/
def pyStrObj : List (String × JsValue) → String
  | [] => ""
  | [(k, v)] => k ++ ": " ++ pyStr v
  | (k, v) :: ps => k ++ ": " ++ pyStr v ++ ", " ++ pyStrObj ps

end

/-- A `tesserae.db.entities.Text` document; only its identifier (`str(t.id)`,
the hex rendering of its Mongo ObjectId) is consumed by this module, so the
remaining fields are not modelled.  `ObjectId` is modelled as the identity on
identifier strings (an ObjectId round-trips through `str`). -/
structure Text where
  id : String

/-- A `tesserae.db.entities.ResultsStatus` record, written by the Worker.
`match_set_id` is `none` while unset (Python `None`). -/
structure ResultsStatus where
  results_id : String
  status : String
  msg : String
  match_set_id : Option String

/-- A `tesserae.db.entities.MatchSet` record. -/
structure MatchSet where
  id : String
  parameters : JsValue

/-- A `tesserae.db.entities.Match` record; `fields` models the field mapping
produced by `m.json_encode()`. -/
structure Match where
  match_set : String
  fields : JsValue

/-- The Store (`flask.g.db`, an external collaborator): one list per entity
collection; `find(collection, field=v)` becomes a filter over the
corresponding list, preserving Store order. -/
structure Database where
  texts : List Text
  statuses : List ResultsStatus
  matchSets : List MatchSet
  matchRecords : List Match

/-- A job descriptor as passed to `flask.g.searcher.queue_search`
(the third, dict argument at lines 118-126 of the source). -/
structure JobDescriptor where
  texts : List Text
  unit_type : JsValue
  feature : JsValue
  stopwords : JsValue
  frequency_basis : JsValue
  max_distance : JsValue
  distance_metric : JsValue

/-- One enqueued job: the first two positional arguments of `queue_search`
together with the descriptor dict. -/
structure Job where
  results_id : String
  method_name : JsValue
  descriptor : JobDescriptor

/-- Modelled from the spec: the searcher (`flask.g.searcher`, an external
collaborator) owns a single bounded FIFO queue shared with the Worker. -/
structure Searcher where
  capacity : Nat
  queued : List Job

/-- Modelled from the spec: `queue_search` performs a single non-blocking
enqueue on the bounded queue; at capacity it raises `queue.Full`, rendered
here as `none` (and the caller's `except queue.Full` branch). -/
def Searcher.queue_search (s : Searcher) (job : Job) : Option Searcher :=
  if s.queued.length < s.capacity then
    some { s with queued := s.queued ++ [job] }
  else
    none

/-- Response bodies: empty (`flask.Response()`), plain text, a JSON
document (`flask.jsonify` / `apitess.errors.error`), or compressed bytes. -/
inductive Body where
  | empty : Body
  | text : String → Body
  | json : JsValue → Body
  | bytes : List (Nat × Char) → Body

/-- An HTTP response as assembled by the handlers: status code, body, and
the headers the source sets explicitly. -/
structure Response where
  status : Nat
  body : Body
  headers : List (String × String)

/-- An uncaught Python exception escaping the handler. -/
inductive Fault where
  | keyError : String → Fault
  | attributeError : String → Fault
  | typeFault : Fault

/-- The observable outcome of one `submit_search` call: a returned response
or an uncaught exception, in both cases paired with the searcher (queue)
state after the call. -/
inductive Outcome where
  | response : Response → Searcher → Outcome
  | crash : Fault → Searcher → Outcome

/-- Modelled from the spec: `apitess.errors.error` (a repository module not
included under `src/`) builds the error response: the given status code with
JSON body carrying the echoed request under `data` and the message. -/
def errorsError (status : Nat) (data : List (String × JsValue)) (message : String) : Response :=
  { status := status,
    body := Body.json (JsValue.obj [("data", JsValue.obj data), ("message", JsValue.str message)]),
    headers := [] }

/-- `c == '/'` test on the first character: `posixpath.join`'s absolute-path
check `p.startswith('/')`, specialized to the one-character separator. -/
def startsWithSlash (s : String) : Bool :=
  match s.data with
  | [] => false
  | c :: _ => c == '/'

/-- `p.endswith('/')`, via the last character. -/
def endsWithSlash (s : String) : Bool :=
  match s.data.getLast? with
  | some c => c == '/'
  | none => false

/-- One step of `os.path.join` (posix): an absolute component restarts the
path; otherwise a separator is inserted unless one is already present. -/
def posixJoin (path p : String) : String :=
  if startsWithSlash p then p
  else if path == "" || endsWithSlash path then path ++ p
  else path ++ "/" ++ p

/-- `_validate_units` (source lines 17-41): error messages for one of the
`source`/`target` unit specifications. -/
def validate_units (specs : List (String × JsValue)) (name : String) : List String :=
  (if jhas specs "object_id" then [] else [name ++ " is missing object_id."]) ++
  (match jget specs "units" with
   | none => [name ++ " is missing units."]
   | some units =>
       if !(isStrEq units "line") && !(isStrEq units "phrase") then
         [name ++ " has unrecognized units: " ++ pyStr units]
       else [])

/-- The required keys of the one registered method, `original`
(the value of `method_requireds['original']`, source lines 88-93; a Python
set, iterated here in the order of the source literal). -/
def method_requireds : List String :=
  ["name", "feature", "stopwords", "freq_basis", "max_distance", "distance_basis"]

/-- The job enqueued on success (source lines 118-126): `results_id`,
`method['name']`, and the descriptor dict.  `unit_type` is taken from
the source specification's `units` (`received['source']['units']`). -/
def mkJob (results_id : String) (source mth : List (String × JsValue)) (nameV : JsValue) : Job :=
  { results_id := results_id,
    method_name := nameV,
    descriptor :=
      { texts := [],
        unit_type := jgetD source "units",
        feature := jgetD mth "feature",
        stopwords := jgetD mth "stopwords",
        frequency_basis := jgetD mth "freq_basis",
        max_distance := jgetD mth "max_distance",
        distance_metric := jgetD mth "distance_basis" } }

/-- `mkJob` with the two resolved texts filled in. -/
def mkJobT (results_id : String) (source mth : List (String × JsValue)) (nameV : JsValue)
    (source_text target_text : Text) : Job :=
  let j := mkJob results_id source mth nameV
  { j with descriptor := { j.descriptor with texts := [source_text, target_text] } }

/-- The successful-admission response (source lines 110-115): 201 Created,
empty body, and a `Location` header computed by
`os.path.join(bp.url_prefix, results_id, '')` with `url_prefix='/parallels'`;
the final `''` component forces the trailing separator. -/
def created201 (results_id : String) : Response :=
  { status := 201,
    body := Body.empty,
    headers := [("Location", posixJoin (posixJoin "/parallels" results_id) "")] }

/-- Last stage of `submit_search` (source lines 110-133): build the 201
response and attempt the enqueue.  On `queue.Full` the handler executes
`apitess.error.error(...)` — but the module imported is `apitess.errors`
(used in every other error path), so that attribute access raises
`AttributeError` and the call crashes with the queue unchanged. -/
def admit_job (searcher : Searcher) (results_id : String)
    (source mth : List (String × JsValue)) (nameV : JsValue)
    (source_text target_text : Text) : Outcome :=
  match searcher.queue_search (mkJobT results_id source mth nameV source_text target_text) with
  | some s2 => Outcome.response (created201 results_id) s2
  | none => Outcome.crash (Fault.attributeError "apitess.error") searcher

/-- Method-validation stage of `submit_search` (source lines 88-108): the
method dict must carry `name`; then `method_requireds[method['name']]` is
indexed — for any name other than `'original'` this dict lookup raises
`KeyError` (`TypeError` for an unhashable name) before any membership check;
for `'original'` the missing required keys are accumulated.  A non-dict
`method` value is modelled as a fault (its Python behaviour under `in` is
type-dependent); no theorem exercises that branch. -/
def check_method (searcher : Searcher) (received : List (String × JsValue))
    (results_id : String) (source : List (String × JsValue))
    (source_text target_text : Text) : Outcome :=
  match jget received "method" with
  | some (JsValue.obj mth) =>
    match jget mth "name" with
    | none => Outcome.response (errorsError 400 received "No specified method name.") searcher
    | some nameV =>
      if isStrEq nameV "original" then
        let missing := method_requireds.filter (fun req => !(jhas mth req))
        if missing.isEmpty then
          admit_job searcher results_id source mth nameV source_text target_text
        else
          Outcome.response (errorsError 400 received
            ("The specified method is missing the following required key(s): " ++
              String.intercalate ", " missing)) searcher
      else
        match nameV with
        | JsValue.arr _ => Outcome.crash Fault.typeFault searcher
        | JsValue.obj _ => Outcome.crash Fault.typeFault searcher
        | _ => Outcome.crash (Fault.keyError (pyStr nameV)) searcher
  | some _ => Outcome.crash Fault.typeFault searcher
  | none => Outcome.crash Fault.typeFault searcher

/-- The dict `{str(t.id): t for t in results}` of source lines 72-74, looked
up at `x`: the last filtered text whose id is `x` (a later duplicate key
overwrites an earlier one). -/
def textLookup (db : Database) (sid tid x : String) : Option Text :=
  ((db.texts.filter (fun t => t.id == sid || t.id == tid)).reverse).find? (fun t => t.id == x)

/-- The ids among `sid`, `tid` (source first, as appended by lines 76-79)
that resolve to no text in the Store. -/
def unresolved_ids (db : Database) (sid tid : String) : List String :=
  (if (db.texts.filter (fun t => t.id == sid || t.id == tid)).any (fun t => t.id == sid)
   then [] else [sid]) ++
  (if (db.texts.filter (fun t => t.id == sid || t.id == tid)).any (fun t => t.id == tid)
   then [] else [tid])

/-- Text-resolution stage of `submit_search` (source lines 70-86): both
`object_id` values are looked up in one batched `find`; every id missing
from the result dict is reported in one 400.  `ObjectId` is modelled as the
identity on id strings; a non-string `object_id` (which `ObjectId` rejects
with a `TypeError`) is a fault branch no theorem exercises. -/
def resolve_texts (db : Database) (searcher : Searcher)
    (received : List (String × JsValue)) (results_id : String)
    (source target : List (String × JsValue)) : Outcome :=
  match jget source "object_id", jget target "object_id" with
  | some (JsValue.str source_object_id), some (JsValue.str target_object_id) =>
    let errors := unresolved_ids db source_object_id target_object_id
    if errors.isEmpty then
      match textLookup db source_object_id target_object_id source_object_id,
            textLookup db source_object_id target_object_id target_object_id with
      | some source_text, some target_text =>
          check_method searcher received results_id source source_text target_text
      | _, _ => Outcome.crash Fault.typeFault searcher
    else
      Outcome.response (errorsError 400 received
        ("Unable to find the following object_id(s) among the texts in the database:\n\t" ++
          String.intercalate "\n\t" errors)) searcher
  | _, _ => Outcome.crash Fault.typeFault searcher

/-- Unit-validation stage of `submit_search` (source lines 59-68): the unit
errors of both sides are accumulated and, if any, reported in one 400.
Non-dict `source`/`target` values are modelled as a fault (Python's `in` on
them is type-dependent); no theorem exercises that branch. -/
def check_units (db : Database) (searcher : Searcher)
    (received : List (String × JsValue)) (results_id : String)
    (sourceV targetV : JsValue) : Outcome :=
  match sourceV, targetV with
  | JsValue.obj source, JsValue.obj target =>
    let errors := validate_units source "source" ++ validate_units target "target"
    if errors.isEmpty then
      resolve_texts db searcher received results_id source target
    else
      Outcome.response (errorsError 400 received
        ("The following errors were found in source and target unit specifications:\n" ++
          String.intercalate "\n\t" errors)) searcher
  | _, _ => Outcome.crash Fault.typeFault searcher

/-- The top-level required keys (the Python set literal of source line 48,
iterated in the order written there; set iteration order only affects the
ordering inside the joined message). -/
def requireds : List String := ["source", "target", "method"]

/-- `submit_search` (source lines 44-133), as a function of the Store, the
searcher (queue) state, the generated `uuid4().hex` identifier, and the
decoded request body. -/
def submit_search (db : Database) (searcher : Searcher) (results_id : String)
    (received : List (String × JsValue)) : Outcome :=
  let missing := requireds.filter (fun req => !(jhas received req))
  if missing.isEmpty then
    match jget received "source", jget received "target" with
    | some sourceV, some targetV => check_units db searcher received results_id sourceV targetV
    | _, _ => Outcome.crash Fault.typeFault searcher
  else
    Outcome.response (errorsError 400 received
      ("The request data payload is missing the following required key(s): " ++
        String.intercalate ", " missing)) searcher

/-- `retrieve_status` (source lines 136-148): look up the `ResultsStatus`
records by `results_id`; none found is a plain-text 404, otherwise the first
record's fields are passed through as JSON. -/
def retrieve_status (db : Database) (results_id : String) : Response :=
  match db.statuses.filter (fun s => s.results_id == results_id) with
  | [] => { status := 404, body := Body.text "Could not find results_id", headers := [] }
  | st :: _ =>
    { status := 200,
      body := Body.json (JsValue.obj
        [("results_id", JsValue.str st.results_id),
         ("status", JsValue.str st.status),
         ("message", JsValue.str st.msg)]),
      headers := [] }

/-- `ObjectId(match_set_id)`: an id string passes through; for Python `None`
(the unset field) the `ObjectId` constructor generates a fresh random id,
modelled by the explicit `freshOid` parameter. -/
def msQueryId (match_set_id : Option String) (freshOid : String) : String :=
  match match_set_id with
  | some s => s
  | none => freshOid

mutual

/-- `json.dumps` of a decoded JSON value (`flask.json.dumps`). -/
def jsonDumps : JsValue → String
  | JsValue.str s => "\"" ++ s ++ "\""
  | JsValue.num n => toString n
  | JsValue.bool true => "true"
  | JsValue.bool false => "false"
  | JsValue.null => "null"
  | JsValue.arr l => "[" ++ jsonDumpsArr l ++ "]"
  | JsValue.obj l => "\x7b" ++ jsonDumpsObj l ++ "\x7d"

/-- Comma-joined serialization of array elements. -/
def jsonDumpsArr : List JsValue → String
  | [] => ""
  | [v] => jsonDumps v
  | v :: vs => jsonDumps v ++ ", " ++ jsonDumpsArr vs

/-- Comma-joined serialization of object entries. -/
def jsonDumpsObj : List (String × JsValue) → String
  | [] => ""
  | [(k, v)] => "\"" ++ k ++ "\": " ++ jsonDumps v
  | (k, v) :: ps => "\"" ++ k ++ "\": " ++ jsonDumps v ++ ", " ++ jsonDumpsObj ps

end

/-- Modelled from the spec: `gzip.compress` is a general-purpose lossless
compression of the encoded bytes (an external library); it is modelled by
run-length coding of the character stream, which keeps the one property the
claims use — the transform is losslessly reversible by the scheme named in
the `Content-Encoding` header. -/
def rleEncode : List Char → List (Nat × Char)
  | [] => []
  | c :: cs =>
    match rleEncode cs with
    | [] => [(1, c)]
    | (n, d) :: rest =>
      if c = d then (n + 1, c) :: rest else (1, c) :: (n, d) :: rest

/-- Inverse of `rleEncode`: expand each run. -/
def rleDecode : List (Nat × Char) → List Char
  | [] => []
  | (n, c) :: rest => List.replicate n c ++ rleDecode rest

/-- `gzip.compress` applied to an encoded string (see `rleEncode`). -/
def gzip_compress (s : String) : List (Nat × Char) :=
  rleEncode s.data

/-- `gzip.decompress`: the receiver's reversal of `gzip_compress`. -/
def gzip_decompress (l : List (Nat × Char)) : String :=
  String.mk (rleDecode l)

/-- The result document serialized on success (source lines 177-180):
`data` is the MatchSet's parameters, `parallels` the field mappings of the
Match records referencing the MatchSet, in Store-returned order. -/
def resultsPayload (db : Database) (ms : MatchSet) : JsValue :=
  JsValue.obj
    [("data", ms.parameters),
     ("parallels", JsValue.arr
        ((db.matchRecords.filter (fun m => m.match_set == ms.id)).map (fun m => m.fields)))]

/-- `retrieve_results` (source lines 150-186): status-record lookup, then
MatchSet lookup by `ObjectId(match_set_id)`, then the compressed serialized
result set with the `Content-Encoding` header naming the compression. -/
def retrieve_results (db : Database) (freshOid : String) (results_id : String) : Response :=
  match db.statuses.filter (fun s => s.results_id == results_id) with
  | [] => { status := 404, body := Body.text "Could not find results_id", headers := [] }
  | st :: _ =>
    match db.matchSets.filter (fun m => m.id == msQueryId st.match_set_id freshOid) with
    | [] => { status := 404, body := Body.text "Could not find MatchSet", headers := [] }
    | ms :: _ =>
      { status := 200,
        body := Body.bytes (gzip_compress (jsonDumps (resultsPayload db ms))),
        headers := [("Content-Type", "application/json"), ("Content-Encoding", "gzip")] }

/-! Concrete fixtures: a Store with two texts, a well-formed submission, and
a Store holding one finished job with two matches.  These instantiate the
witnesses and counterexamples below. -/

/-- A source unit specification resolving to text `aaa`. -/
def srcEx : List (String × JsValue) :=
  [("object_id", JsValue.str "aaa"), ("units", JsValue.str "line")]

/-- A target unit specification resolving to text `bbb`. -/
def tgtEx : List (String × JsValue) :=
  [("object_id", JsValue.str "bbb"), ("units", JsValue.str "phrase")]

/-- A complete `original`-method specification. -/
def mthEx : List (String × JsValue) :=
  [("name", JsValue.str "original"), ("feature", JsValue.str "lemma"),
   ("stopwords", JsValue.arr []), ("freq_basis", JsValue.str "corpus"),
   ("max_distance", JsValue.num 10), ("distance_basis", JsValue.str "frequency")]

/-- A Store holding exactly the texts `aaa` and `bbb`. -/
def dbEx : Database :=
  { texts := [{ id := "aaa" }, { id := "bbb" }],
    statuses := [], matchSets := [], matchRecords := [] }

/-- A searcher with room in its queue. -/
def schEx : Searcher := { capacity := 4, queued := [] }

/-- A searcher whose queue is at capacity. -/
def schFullEx : Searcher := { capacity := 0, queued := [] }

/-- A fully valid submission payload. -/
def pEx : List (String × JsValue) :=
  [("source", JsValue.obj srcEx), ("target", JsValue.obj tgtEx), ("method", JsValue.obj mthEx)]

/-- A payload valid except that its method name is not registered. -/
def pBadNameEx : List (String × JsValue) :=
  [("source", JsValue.obj srcEx), ("target", JsValue.obj tgtEx),
   ("method", JsValue.obj [("name", JsValue.str "fakemethod")])]

/-- A payload with three violations in three different validation stages:
unrecognized `units` on source, an unresolvable target `object_id` (`zzz`
is not in `dbEx`), and missing required method keys. -/
def pThreeFaultsEx : List (String × JsValue) :=
  [("source", JsValue.obj [("object_id", JsValue.str "aaa"), ("units", JsValue.str "word")]),
   ("target", JsValue.obj [("object_id", JsValue.str "zzz"), ("units", JsValue.str "line")]),
   ("method", JsValue.obj [("name", JsValue.str "original")])]

/-- A payload whose unit specifications are valid but whose target
`object_id` does not resolve in `dbEx`. -/
def pUnresolvedEx : List (String × JsValue) :=
  [("source", JsValue.obj srcEx),
   ("target", JsValue.obj [("object_id", JsValue.str "zzz"), ("units", JsValue.str "line")]),
   ("method", JsValue.obj mthEx)]

/-- A finished job's status record. -/
def stDoneEx : ResultsStatus :=
  { results_id := "j1", status := "Done", msg := "search finished", match_set_id := some "ms1" }

/-- A running job's status record: `match_set_id` still unset. -/
def stRunningEx : ResultsStatus :=
  { results_id := "j2", status := "Running", msg := "in progress", match_set_id := none }

/-- The finished job's MatchSet. -/
def msEx : MatchSet :=
  { id := "ms1", parameters := JsValue.obj [("feature", JsValue.str "lemma")] }

/-- A Store for the retrieval endpoints: one finished job with two matches,
one still-running job, and one match belonging to another MatchSet. -/
def dbResEx : Database :=
  { texts := [],
    statuses := [stDoneEx, stRunningEx],
    matchSets := [msEx],
    matchRecords :=
      [{ match_set := "ms1", fields := JsValue.obj [("a", JsValue.num 1)] },
       { match_set := "ms1", fields := JsValue.obj [("b", JsValue.num 2)] },
       { match_set := "other", fields := JsValue.null }] }

/-- A submission payload assembled from a source specification, the target
specification's entries other than `units`, a `units` value `u` for the
target, and a method specification: two such payloads differ only in the
target's `units` value. -/
def payloadWith (src trest mth : List (String × JsValue)) (u : String) :
    List (String × JsValue) :=
  [("source", JsValue.obj src),
   ("target", JsValue.obj (("units", JsValue.str u) :: trest)),
   ("method", JsValue.obj mth)]

/-- Outcome observation: is this a returned response with status 400?
(Used to state that a crash is not a 400 validation response.) -/
def isResponse400 : Outcome → Bool
  | Outcome.response r _ => r.status == 400
  | Outcome.crash _ _ => false

/-- The searcher (queue) state after an outcome. -/
def outSearcher : Outcome → Searcher
  | Outcome.response _ s => s
  | Outcome.crash _ s => s

/-- Does `pat` occur as a prefix of `s` (character lists)? -/
def patAtFront (pat s : List Char) : Bool :=
  match pat, s with
  | [], _ => true
  | _ :: _, [] => false
  | c :: cs, d :: ds => c == d && patAtFront cs ds

/-- Does `pat` occur as a contiguous sublist of `s`? -/
def containsSubChars (s pat : List Char) : Bool :=
  match s with
  | [] => patAtFront pat []
  | _ :: rest => patAtFront pat s || containsSubChars rest pat

/-- Python `sub in s` on strings: contiguous substring containment. -/
def strContainsSub (s sub : String) : Bool :=
  containsSubChars s.data sub.data

/-- The frame property of one `submit_search` call relative to the incoming
searcher state `s`: a returned response is either a validation failure
(status 400) leaving the queue untouched, or the created response
(status 201) having enqueued exactly one job; an uncaught exception leaves
the queue untouched. -/
def frameOK (s : Searcher) : Outcome → Prop
  | Outcome.response r s2 =>
      (r.status = 400 ∧ s2 = s) ∨
      (r.status = 201 ∧ ∃ j, s2 = { s with queued := s.queued ++ [j] })
  | Outcome.crash _ s2 => s2 = s

/-! Helper lemmas. -/

theorem rleEncode_ne_nil (c : Char) (cs : List Char) : rleEncode (c :: cs) ≠ [] := by
  unfold rleEncode
  cases h : rleEncode cs with
  | nil => simp
  | cons p rest =>
    obtain ⟨n, d⟩ := p
    by_cases hc : c = d <;> simp [hc]

theorem rleDecode_rleEncode (l : List Char) : rleDecode (rleEncode l) = l := by
  induction l with
  | nil => rfl
  | cons c cs ih =>
    show rleDecode (rleEncode (c :: cs)) = c :: cs
    unfold rleEncode
    cases h : rleEncode cs with
    | nil =>
      have hcs : cs = [] := by
        cases cs with
        | nil => rfl
        | cons d ds => exact absurd h (rleEncode_ne_nil d ds)
      subst hcs
      simp [rleDecode]
    | cons p rest =>
      obtain ⟨n, d⟩ := p
      rw [h] at ih
      simp only [rleDecode] at ih
      by_cases hc : c = d
      · subst hc
        simp only [if_pos rfl, rleDecode, List.replicate_succ, List.cons_append]
        rw [ih]
      · simp only [if_neg hc, rleDecode, List.replicate, List.cons_append, List.nil_append]
        rw [ih]

theorem gzip_decompress_compress (s : String) : gzip_decompress (gzip_compress s) = s := by
  cases s with
  | mk data =>
    show String.mk (rleDecode (rleEncode data)) = String.mk data
    rw [rleDecode_rleEncode]

theorem filter_beq_eq_nil {α : Type} (l : List α) (f : α → String) (k : String) :
    l.filter (fun a => f a == k) = [] ↔ ∀ a ∈ l, f a ≠ k := by
  rw [List.filter_eq_nil_iff]
  simp

theorem any_of_textLookup (db : Database) (sid tid x : String) (t : Text)
    (h : textLookup db sid tid x = some t) :
    (db.texts.filter (fun u => u.id == sid || u.id == tid)).any (fun u => u.id == x) = true := by
  unfold textLookup at h
  have hp := List.find?_some h
  have hm := List.mem_of_find?_eq_some h
  rw [List.mem_reverse] at hm
  exact List.any_eq_true.mpr ⟨t, hm, hp⟩

theorem validate_units_units_cons (trest : List (String × JsValue)) (u : String)
    (hu : u = "line" ∨ u = "phrase") :
    validate_units (("units", JsValue.str u) :: trest) "target" =
      (if jhas trest "object_id" then [] else ["target is missing object_id."]) := by
  have h1 : jhas (("units", JsValue.str u) :: trest) "object_id" = jhas trest "object_id" := rfl
  have h2 : jget (("units", JsValue.str u) :: trest) "units" = some (JsValue.str u) := rfl
  unfold validate_units
  rw [h1, h2]
  rcases hu with h | h <;> subst h <;> simp [isStrEq]

theorem posixJoin_parallels (rid : String) (h1 : startsWithSlash rid = false) :
    posixJoin "/parallels" rid = "/parallels/" ++ rid := by
  unfold posixJoin
  rw [h1]
  have h2 : ("/parallels" == "" || endsWithSlash "/parallels") = false := by decide
  simp only [Bool.false_eq_true, if_false, h2]
  rfl

theorem posixJoin_location (rid : String) (h1 : startsWithSlash rid = false)
    (h2 : endsWithSlash rid = false) (h3 : rid ≠ "") :
    posixJoin (posixJoin "/parallels" rid) "" = "/parallels/" ++ rid ++ "/" := by
  rw [posixJoin_parallels rid h1]
  have hdat : rid.data ≠ [] := by
    cases rid with
    | mk l =>
      intro hnil
      apply h3
      have hl : l = [] := hnil
      rw [hl]
  have hne : ("/parallels/" ++ rid == "") = false := by
    apply beq_eq_false_iff_ne.mpr
    intro hcontra
    have hlen := congrArg String.length hcontra
    have h11 : ("/parallels/" : String).length = 11 := rfl
    have h0 : ("" : String).length = 0 := rfl
    rw [String.length_append, h11, h0] at hlen
    omega
  have hes : endsWithSlash ("/parallels/" ++ rid) = false := by
    unfold endsWithSlash at h2 ⊢
    rw [String.data_append, List.getLast?_append_of_ne_nil _ hdat]
    exact h2
  unfold posixJoin
  have hsw : startsWithSlash "" = false := rfl
  rw [hsw, hne, hes]
  simp only [Bool.false_eq_true, if_false, Bool.or_self]
  rw [String.append_empty]

theorem submit_search_success
    (db : Database) (searcher : Searcher) (rid : String)
    (received source target mth : List (String × JsValue)) (sid tid : String)
    (st tt : Text)
    (hs : jget received "source" = some (JsValue.obj source))
    (ht : jget received "target" = some (JsValue.obj target))
    (hm : jget received "method" = some (JsValue.obj mth))
    (hus : validate_units source "source" = [])
    (hut : validate_units target "target" = [])
    (hsid : jget source "object_id" = some (JsValue.str sid))
    (htid : jget target "object_id" = some (JsValue.str tid))
    (hst : textLookup db sid tid sid = some st)
    (htt : textLookup db sid tid tid = some tt)
    (hname : jget mth "name" = some (JsValue.str "original"))
    (hreq : method_requireds.filter (fun req => !(jhas mth req)) = [])
    (hcap : searcher.queued.length < searcher.capacity) :
    submit_search db searcher rid received =
      Outcome.response (created201 rid)
        { searcher with queued :=
            searcher.queued ++ [mkJobT rid source mth (JsValue.str "original") st tt] } := by
  have hhs : jhas received "source" = true := by rw [jhas, hs]; rfl
  have hht : jhas received "target" = true := by rw [jhas, ht]; rfl
  have hhm : jhas received "method" = true := by rw [jhas, hm]; rfl
  have hids : unresolved_ids db sid tid = [] := by
    unfold unresolved_ids
    rw [any_of_textLookup db sid tid sid st hst, any_of_textLookup db sid tid tid tt htt]
    rfl
  have step1 : submit_search db searcher rid received =
      check_units db searcher received rid (JsValue.obj source) (JsValue.obj target) := by
    simp [submit_search, requireds, List.filter_cons, List.filter_nil, hhs, hht, hhm, hs, ht]
  have step2 : check_units db searcher received rid (JsValue.obj source) (JsValue.obj target) =
      resolve_texts db searcher received rid source target := by
    simp [check_units, hus, hut]
  have step3 : resolve_texts db searcher received rid source target =
      check_method searcher received rid source st tt := by
    simp [resolve_texts, hsid, htid, hids, hst, htt]
  have step4 : check_method searcher received rid source st tt =
      admit_job searcher rid source mth (JsValue.str "original") st tt := by
    simp [check_method, hm, hname, isStrEq, hreq]
  have step5 : admit_job searcher rid source mth (JsValue.str "original") st tt =
      Outcome.response (created201 rid)
        { searcher with queued :=
            searcher.queued ++ [mkJobT rid source mth (JsValue.str "original") st tt] } := by
    unfold admit_job Searcher.queue_search
    rw [if_pos hcap]
  exact step1.trans (step2.trans (step3.trans (step4.trans step5)))

theorem submit_search_to_check_units
    (db : Database) (searcher : Searcher) (rid : String)
    (received source target : List (String × JsValue))
    (hs : jget received "source" = some (JsValue.obj source))
    (ht : jget received "target" = some (JsValue.obj target))
    (hm : jhas received "method" = true) :
    submit_search db searcher rid received =
      check_units db searcher received rid (JsValue.obj source) (JsValue.obj target) := by
  have hhs : jhas received "source" = true := by rw [jhas, hs]; rfl
  have hht : jhas received "target" = true := by rw [jhas, ht]; rfl
  simp [submit_search, requireds, List.filter_cons, List.filter_nil, hhs, hht, hm, hs, ht]

theorem any_filter_pair (l : List Text) (sid tid x : String) (hx : x = sid ∨ x = tid) :
    (l.filter (fun t => t.id == sid || t.id == tid)).any (fun t => t.id == x) =
      l.any (fun t => t.id == x) := by
  induction l with
  | nil => rfl
  | cons t ts ih =>
    rw [List.filter_cons]
    by_cases hf : (t.id == sid || t.id == tid) = true
    · rw [if_pos hf, List.any_cons, List.any_cons, ih]
    · have hor : (t.id == sid || t.id == tid) = false := by
        cases h : (t.id == sid || t.id == tid) with
        | true => exact absurd h hf
        | false => rfl
      have h1 : (t.id == sid) = false := (Bool.or_eq_false_iff.mp hor).1
      have h2 : (t.id == tid) = false := (Bool.or_eq_false_iff.mp hor).2
      have hx' : (t.id == x) = false := by rcases hx with h | h <;> subst h <;> assumption
      rw [if_neg hf, List.any_cons, hx', ih]
      simp

theorem mem_unresolved_ids (db : Database) (sid tid x : String) :
    x ∈ unresolved_ids db sid tid ↔
      ((x = sid ∨ x = tid) ∧ db.texts.any (fun t => t.id == x) = false) := by
  unfold unresolved_ids
  rw [any_filter_pair db.texts sid tid sid (Or.inl rfl),
      any_filter_pair db.texts sid tid tid (Or.inr rfl)]
  constructor
  · intro hx
    rcases List.mem_append.mp hx with hx | hx
    · by_cases h1 : db.texts.any (fun t => t.id == sid) = true
      · rw [if_pos h1] at hx
        cases hx
      · rw [if_neg h1, List.mem_singleton] at hx
        subst hx
        exact ⟨Or.inl rfl, Bool.eq_false_iff.mpr h1⟩
    · by_cases h2 : db.texts.any (fun t => t.id == tid) = true
      · rw [if_pos h2] at hx
        cases hx
      · rw [if_neg h2, List.mem_singleton] at hx
        subst hx
        exact ⟨Or.inr rfl, Bool.eq_false_iff.mpr h2⟩
  · intro hx
    obtain ⟨hor, hany⟩ := hx
    have hne : ¬(db.texts.any (fun t => t.id == x) = true) := by
      rw [hany]
      exact Bool.false_ne_true
    apply List.mem_append.mpr
    rcases hor with h | h
    · left
      subst h
      rw [if_neg hne]
      exact List.mem_singleton.mpr rfl
    · right
      subst h
      rw [if_neg hne]
      exact List.mem_singleton.mpr rfl

/-- Claim C3 (amended): validation accumulates errors within each stage —
the unit-specification stage reports every unit error of both source and
target together in one 400 with the queue untouched — but the stages
short-circuit: the first failing stage's errors are reported alone, the
later rules (Store resolution, method checks) are not evaluated, for any
Store and searcher state. -/
theorem submit_search_units_errors
    (db : Database) (searcher : Searcher) (rid : String)
    (received source target : List (String × JsValue))
    (hs : jget received "source" = some (JsValue.obj source))
    (ht : jget received "target" = some (JsValue.obj target))
    (hm : jhas received "method" = true)
    (herr : validate_units source "source" ++ validate_units target "target" ≠ []) :
    submit_search db searcher rid received =
      Outcome.response (errorsError 400 received
        ("The following errors were found in source and target unit specifications:\n" ++
          String.intercalate "\n\t"
            (validate_units source "source" ++ validate_units target "target"))) searcher := by
  rw [submit_search_to_check_units db searcher rid received source target hs ht hm]
  unfold check_units
  dsimp only
  have hcond : (validate_units source "source" ++ validate_units target "target").isEmpty
      = false := by
    cases hE : validate_units source "source" ++ validate_units target "target" with
    | nil => exact absurd hE herr
    | cons a l => rfl
  rw [hcond, if_neg Bool.false_ne_true]

/-- Counterexample to claim C3 as stated: this payload violates three rules
in three different stages (unrecognized source units, unresolvable target
id `zzz`, missing method keys), yet the single 400 reports only the
unit-specification error — the message mentions neither `zzz` nor any
missing method key. -/
theorem submit_search_units_errors_counterexample :
    submit_search dbEx schEx "rid3" pThreeFaultsEx =
      Outcome.response (errorsError 400 pThreeFaultsEx
        "The following errors were found in source and target unit specifications:\nsource has unrecognized units: word")
        schEx
    ∧ strContainsSub
        "The following errors were found in source and target unit specifications:\nsource has unrecognized units: word"
        "zzz" = false
    ∧ strContainsSub
        "The following errors were found in source and target unit specifications:\nsource has unrecognized units: word"
        "required key" = false :=
  ⟨rfl, rfl, rfl⟩

/-- Witness for C3 (amended), at the same three-fault payload: the reported
message is exactly the accumulated unit-stage errors. -/
theorem submit_search_units_errors_witness :
    submit_search dbEx schEx "rid3w" pThreeFaultsEx =
      Outcome.response (errorsError 400 pThreeFaultsEx
        ("The following errors were found in source and target unit specifications:\n" ++
          String.intercalate "\n\t"
            (validate_units [("object_id", JsValue.str "aaa"), ("units", JsValue.str "word")]
                "source" ++
             validate_units [("object_id", JsValue.str "zzz"), ("units", JsValue.str "line")]
                "target"))) schEx :=
  submit_search_units_errors dbEx schEx "rid3w" pThreeFaultsEx
    [("object_id", JsValue.str "aaa"), ("units", JsValue.str "word")]
    [("object_id", JsValue.str "zzz"), ("units", JsValue.str "line")]
    rfl rfl rfl (by decide)

/-- Claim C4: when both unit specifications pass validation and one or both
`object_id` values do not resolve via the Store's batched lookup, the single
400 message enumerates the unresolved ids — membership in the reported list
is exactly "is one of the two ids and resolves to no text" — and the queue
is untouched. -/
theorem submit_search_unresolved_reported
    (db : Database) (searcher : Searcher) (rid : String)
    (received source target : List (String × JsValue)) (sid tid : String)
    (hs : jget received "source" = some (JsValue.obj source))
    (ht : jget received "target" = some (JsValue.obj target))
    (hm : jhas received "method" = true)
    (hus : validate_units source "source" = [])
    (hut : validate_units target "target" = [])
    (hsid : jget source "object_id" = some (JsValue.str sid))
    (htid : jget target "object_id" = some (JsValue.str tid))
    (hunres : db.texts.any (fun t => t.id == sid) = false ∨
              db.texts.any (fun t => t.id == tid) = false) :
    submit_search db searcher rid received =
      Outcome.response (errorsError 400 received
        ("Unable to find the following object_id(s) among the texts in the database:\n\t" ++
          String.intercalate "\n\t" (unresolved_ids db sid tid))) searcher
    ∧ (∀ x, x ∈ unresolved_ids db sid tid ↔
        ((x = sid ∨ x = tid) ∧ db.texts.any (fun t => t.id == x) = false)) := by
  have hmem : unresolved_ids db sid tid ≠ [] := by
    rcases hunres with h | h
    · exact List.ne_nil_of_mem ((mem_unresolved_ids db sid tid sid).mpr ⟨Or.inl rfl, h⟩)
    · exact List.ne_nil_of_mem ((mem_unresolved_ids db sid tid tid).mpr ⟨Or.inr rfl, h⟩)
  have hcond : (unresolved_ids db sid tid).isEmpty = false := by
    cases hE : unresolved_ids db sid tid with
    | nil => exact absurd hE hmem
    | cons a l => rfl
  constructor
  · rw [submit_search_to_check_units db searcher rid received source target hs ht hm]
    have step2 : check_units db searcher received rid (JsValue.obj source) (JsValue.obj target) =
        resolve_texts db searcher received rid source target := by
      simp [check_units, hus, hut]
    rw [step2]
    unfold resolve_texts
    rw [hsid, htid]
    dsimp only
    rw [hcond, if_neg Bool.false_ne_true]
  · intro x
    exact mem_unresolved_ids db sid tid x

/-- Witness for C4: with only texts `aaa` and `bbb` stored, the payload
whose target id is `zzz` draws the 400 enumerating the unresolved ids. -/
theorem submit_search_unresolved_reported_witness :
    submit_search dbEx schEx "rid4" pUnresolvedEx =
      Outcome.response (errorsError 400 pUnresolvedEx
        ("Unable to find the following object_id(s) among the texts in the database:\n\t" ++
          String.intercalate "\n\t" (unresolved_ids dbEx "aaa" "zzz"))) schEx :=
  (submit_search_unresolved_reported dbEx schEx "rid4" pUnresolvedEx srcEx
    [("object_id", JsValue.str "zzz"), ("units", JsValue.str "line")] "aaa" "zzz"
    rfl rfl rfl rfl rfl rfl rfl (Or.inr rfl)).1

/-! Claims about the retrieval endpoints. -/

/-- Claim C6: `retrieve_status` answers 404 with plain-text body
`Could not find results_id` exactly when the Store holds no `ResultsStatus`
record whose `results_id` matches (covering unknown ids and jobs the Worker
has not yet published), and otherwise answers 200 with a JSON body passing
the matching record's `results_id`, `status` and `message` fields through
verbatim. -/
theorem retrieve_status_spec (db : Database) (rid : String) :
    (((retrieve_status db rid).status = 404) ↔ ∀ st ∈ db.statuses, st.results_id ≠ rid)
    ∧ ((∀ st ∈ db.statuses, st.results_id ≠ rid) →
        retrieve_status db rid =
          { status := 404, body := Body.text "Could not find results_id", headers := [] })
    ∧ (∀ st rest, db.statuses.filter (fun s => s.results_id == rid) = st :: rest →
        retrieve_status db rid =
          { status := 200,
            body := Body.json (JsValue.obj
              [("results_id", JsValue.str st.results_id),
               ("status", JsValue.str st.status),
               ("message", JsValue.str st.msg)]),
            headers := [] }) := by
  refine ⟨?_, ?_, ?_⟩
  · constructor
    · intro h404
      rw [← filter_beq_eq_nil db.statuses (fun s => s.results_id) rid]
      cases h : db.statuses.filter (fun s => s.results_id == rid) with
      | nil => rfl
      | cons st rest =>
        exfalso
        unfold retrieve_status at h404
        rw [h] at h404
        simp at h404
    · intro hnone
      have h : db.statuses.filter (fun s => s.results_id == rid) = [] :=
        (filter_beq_eq_nil db.statuses (fun s => s.results_id) rid).mpr hnone
      unfold retrieve_status
      rw [h]
  · intro hnone
    have h : db.statuses.filter (fun s => s.results_id == rid) = [] :=
      (filter_beq_eq_nil db.statuses (fun s => s.results_id) rid).mpr hnone
    unfold retrieve_status
    rw [h]
  · intro st rest h
    unfold retrieve_status
    rw [h]

/-- Witness for C6 at a concrete Store: the finished job's record is passed
through, and an unknown id is a plain-text 404. -/
theorem retrieve_status_spec_witness :
    retrieve_status dbResEx "j1" =
      { status := 200,
        body := Body.json (JsValue.obj
          [("results_id", JsValue.str "j1"),
           ("status", JsValue.str "Done"),
           ("message", JsValue.str "search finished")]),
        headers := [] } :=
  (retrieve_status_spec dbResEx "j1").2.2 stDoneEx [] rfl

/-- Claim C7: when the status record references an existing MatchSet,
`retrieve_results` answers 200 with the `Content-Encoding` header naming the
compression, and the body is the compressed serialization of
`data = MatchSet.parameters` with `parallels` listing the field mappings of
exactly the Match records referencing that MatchSet in Store-returned order;
decompressing the body recovers that serialization exactly. -/
theorem retrieve_results_roundtrip
    (db : Database) (freshOid rid : String) (st : ResultsStatus) (rest : List ResultsStatus)
    (msid : String) (ms : MatchSet) (msrest : List MatchSet)
    (hst : db.statuses.filter (fun s => s.results_id == rid) = st :: rest)
    (hmsid : st.match_set_id = some msid)
    (hms : db.matchSets.filter (fun m => m.id == msid) = ms :: msrest) :
    retrieve_results db freshOid rid =
      { status := 200,
        body := Body.bytes (gzip_compress (jsonDumps (resultsPayload db ms))),
        headers := [("Content-Type", "application/json"), ("Content-Encoding", "gzip")] }
    ∧ gzip_decompress (gzip_compress (jsonDumps (resultsPayload db ms))) =
        jsonDumps (resultsPayload db ms)
    ∧ resultsPayload db ms = JsValue.obj
        [("data", ms.parameters),
         ("parallels", JsValue.arr
            ((db.matchRecords.filter (fun m => m.match_set == ms.id)).map (fun m => m.fields)))] := by
  refine ⟨?_, gzip_decompress_compress _, rfl⟩
  unfold retrieve_results
  rw [hst]
  dsimp only
  simp only [hmsid, msQueryId]
  rw [hms]

/-- Witness for C7: the concrete finished job with two matches; the response
body decompresses to the serialized result set. -/
theorem retrieve_results_roundtrip_witness :
    retrieve_results dbResEx "freshZ" "j1" =
      { status := 200,
        body := Body.bytes (gzip_compress (jsonDumps (resultsPayload dbResEx msEx))),
        headers := [("Content-Type", "application/json"), ("Content-Encoding", "gzip")] }
    ∧ gzip_decompress (gzip_compress (jsonDumps (resultsPayload dbResEx msEx))) =
        jsonDumps (resultsPayload dbResEx msEx) :=
  ⟨(retrieve_results_roundtrip dbResEx "freshZ" "j1" stDoneEx [] "ms1" msEx []
      rfl rfl rfl).1,
   (retrieve_results_roundtrip dbResEx "freshZ" "j1" stDoneEx [] "ms1" msEx []
      rfl rfl rfl).2.1⟩

/-- Claim C8: `retrieve_results` answers a plain 404 when the status record
is absent, and likewise when the status record's `match_set_id` is unset
(the fresh ObjectId generated for `None` matching nothing) or references no
existing MatchSet — the not-finished-yet case — without any fault. -/
theorem retrieve_results_not_found (db : Database) (freshOid rid : String) :
    ((∀ st ∈ db.statuses, st.results_id ≠ rid) →
      retrieve_results db freshOid rid =
        { status := 404, body := Body.text "Could not find results_id", headers := [] })
    ∧ (∀ st rest, db.statuses.filter (fun s => s.results_id == rid) = st :: rest →
        (∀ ms ∈ db.matchSets, ms.id ≠ msQueryId st.match_set_id freshOid) →
        retrieve_results db freshOid rid =
          { status := 404, body := Body.text "Could not find MatchSet", headers := [] })
    ∧ (∀ st rest, db.statuses.filter (fun s => s.results_id == rid) = st :: rest →
        st.match_set_id = none →
        (∀ ms ∈ db.matchSets, ms.id ≠ freshOid) →
        retrieve_results db freshOid rid =
          { status := 404, body := Body.text "Could not find MatchSet", headers := [] }) := by
  have main : ∀ st rest, db.statuses.filter (fun s => s.results_id == rid) = st :: rest →
      (∀ ms ∈ db.matchSets, ms.id ≠ msQueryId st.match_set_id freshOid) →
      retrieve_results db freshOid rid =
        { status := 404, body := Body.text "Could not find MatchSet", headers := [] } := by
    intro st rest hst hnoms
    have h : db.matchSets.filter (fun m => m.id == msQueryId st.match_set_id freshOid) = [] :=
      (filter_beq_eq_nil db.matchSets (fun m => m.id) _).mpr hnoms
    unfold retrieve_results
    rw [hst]
    dsimp only
    rw [h]
  refine ⟨?_, main, ?_⟩
  · intro hnone
    have h : db.statuses.filter (fun s => s.results_id == rid) = [] :=
      (filter_beq_eq_nil db.statuses (fun s => s.results_id) rid).mpr hnone
    unfold retrieve_results
    rw [h]
  · intro st rest hst hunset hnoms
    refine main st rest hst ?_
    rw [hunset]
    exact hnoms

/-- Witness for C8: an unknown id is 404, and the running job whose
`match_set_id` is still unset is 404 (the fresh id `freshZ` collides with no
stored MatchSet). -/
theorem retrieve_results_not_found_witness :
    retrieve_results dbResEx "freshZ" "nope" =
      { status := 404, body := Body.text "Could not find results_id", headers := [] }
    ∧ retrieve_results dbResEx "freshZ" "j2" =
      { status := 404, body := Body.text "Could not find MatchSet", headers := [] } :=
  ⟨(retrieve_results_not_found dbResEx "freshZ" "nope").1 (by decide),
   (retrieve_results_not_found dbResEx "freshZ" "j2").2.2 stRunningEx [] rfl rfl (by decide)⟩


/-- Claim C5: a submission that passes every validation rule and whose
enqueue succeeds draws status 201 with an empty body and a `Location` header
equal to the job namespace prefix joined with the fresh job identifier and a
trailing separator; exactly one job is appended to the queue.  The
hypotheses on `rid` hold of every `uuid4().hex` value (32 lowercase hex
characters). -/
theorem submit_search_created
    (db : Database) (searcher : Searcher) (rid : String)
    (received source target mth : List (String × JsValue)) (sid tid : String)
    (st tt : Text)
    (hs : jget received "source" = some (JsValue.obj source))
    (ht : jget received "target" = some (JsValue.obj target))
    (hm : jget received "method" = some (JsValue.obj mth))
    (hus : validate_units source "source" = [])
    (hut : validate_units target "target" = [])
    (hsid : jget source "object_id" = some (JsValue.str sid))
    (htid : jget target "object_id" = some (JsValue.str tid))
    (hst : textLookup db sid tid sid = some st)
    (htt : textLookup db sid tid tid = some tt)
    (hname : jget mth "name" = some (JsValue.str "original"))
    (hreq : method_requireds.filter (fun req => !(jhas mth req)) = [])
    (hcap : searcher.queued.length < searcher.capacity)
    (hrid1 : startsWithSlash rid = false)
    (hrid2 : endsWithSlash rid = false)
    (hrid3 : rid ≠ "") :
    submit_search db searcher rid received =
      Outcome.response
        { status := 201, body := Body.empty,
          headers := [("Location", "/parallels/" ++ rid ++ "/")] }
        { searcher with queued :=
            searcher.queued ++ [mkJobT rid source mth (JsValue.str "original") st tt] } := by
  rw [submit_search_success db searcher rid received source target mth sid tid st tt
      hs ht hm hus hut hsid htid hst htt hname hreq hcap]
  unfold created201
  rw [posixJoin_location rid hrid1 hrid2 hrid3]

/-- Witness for C5: the concrete valid submission is admitted with
`Location: /parallels/abc123/`. -/
theorem submit_search_created_witness :
    submit_search dbEx schEx "abc123" pEx =
      Outcome.response
        { status := 201, body := Body.empty,
          headers := [("Location", "/parallels/" ++ "abc123" ++ "/")] }
        { schEx with queued :=
            schEx.queued ++
              [mkJobT "abc123" srcEx mthEx (JsValue.str "original") { id := "aaa" } { id := "bbb" }] } :=
  submit_search_created dbEx schEx "abc123" pEx srcEx tgtEx mthEx "aaa" "bbb"
    { id := "aaa" } { id := "bbb" } rfl rfl rfl rfl rfl rfl rfl rfl rfl rfl rfl
    (by decide) rfl rfl (by decide)

/-- Claim C10: two valid submissions differing only in the target's `units`
value (each of `line`/`phrase`) are admitted to identical outcomes — the
same response and the same enqueued job — because the descriptor's
`unit_type` is taken solely from the source's `units`; and for any two job
identifiers the built jobs differ at most in `results_id` (equal
descriptors). -/
theorem target_units_noninterference
    (db : Database) (searcher : Searcher) (rid : String)
    (src trest mth : List (String × JsValue)) (sid tid : String) (st tt : Text)
    (u1 u2 : String)
    (hu1 : u1 = "line" ∨ u1 = "phrase") (hu2 : u2 = "line" ∨ u2 = "phrase")
    (hus : validate_units src "source" = [])
    (hsid : jget src "object_id" = some (JsValue.str sid))
    (hto : jget trest "object_id" = some (JsValue.str tid))
    (hst : textLookup db sid tid sid = some st)
    (htt : textLookup db sid tid tid = some tt)
    (hname : jget mth "name" = some (JsValue.str "original"))
    (hreq : method_requireds.filter (fun req => !(jhas mth req)) = [])
    (hcap : searcher.queued.length < searcher.capacity) :
    submit_search db searcher rid (payloadWith src trest mth u1) =
      Outcome.response (created201 rid)
        { searcher with queued :=
            searcher.queued ++ [mkJobT rid src mth (JsValue.str "original") st tt] }
    ∧ submit_search db searcher rid (payloadWith src trest mth u2) =
      Outcome.response (created201 rid)
        { searcher with queued :=
            searcher.queued ++ [mkJobT rid src mth (JsValue.str "original") st tt] }
    ∧ ∀ r1 r2 : String,
        (mkJobT r1 src mth (JsValue.str "original") st tt).descriptor =
        (mkJobT r2 src mth (JsValue.str "original") st tt).descriptor := by
  have key : ∀ u : String, u = "line" ∨ u = "phrase" →
      submit_search db searcher rid (payloadWith src trest mth u) =
        Outcome.response (created201 rid)
          { searcher with queued :=
              searcher.queued ++ [mkJobT rid src mth (JsValue.str "original") st tt] } := by
    intro u hu
    have hjt : jhas trest "object_id" = true := by rw [jhas, hto]; rfl
    have htgt : validate_units (("units", JsValue.str u) :: trest) "target" = [] := by
      rw [validate_units_units_cons trest u hu, hjt, if_pos rfl]
    have htid : jget (("units", JsValue.str u) :: trest) "object_id" =
        some (JsValue.str tid) := by
      have : jget (("units", JsValue.str u) :: trest) "object_id" = jget trest "object_id" := rfl
      rw [this, hto]
    exact submit_search_success db searcher rid (payloadWith src trest mth u) src
      (("units", JsValue.str u) :: trest) mth sid tid st tt rfl rfl rfl hus htgt hsid htid
      hst htt hname hreq hcap
  exact ⟨key u1 hu1, key u2 hu2, fun r1 r2 => rfl⟩

/-- Witness for C10: the two concrete payloads (target units `line` vs
`phrase`) are admitted with the same job. -/
theorem target_units_noninterference_witness :
    submit_search dbEx schEx "ridA" (payloadWith srcEx [("object_id", JsValue.str "bbb")] mthEx "line") =
      Outcome.response (created201 "ridA")
        { schEx with queued :=
            schEx.queued ++
              [mkJobT "ridA" srcEx mthEx (JsValue.str "original") { id := "aaa" } { id := "bbb" }] }
    ∧ submit_search dbEx schEx "ridA" (payloadWith srcEx [("object_id", JsValue.str "bbb")] mthEx "phrase") =
      Outcome.response (created201 "ridA")
        { schEx with queued :=
            schEx.queued ++
              [mkJobT "ridA" srcEx mthEx (JsValue.str "original") { id := "aaa" } { id := "bbb" }] } :=
  ⟨(target_units_noninterference dbEx schEx "ridA" srcEx [("object_id", JsValue.str "bbb")]
      mthEx "aaa" "bbb" { id := "aaa" } { id := "bbb" } "line" "phrase"
      (Or.inl rfl) (Or.inr rfl) rfl rfl rfl rfl rfl rfl rfl (by decide)).1,
   (target_units_noninterference dbEx schEx "ridA" srcEx [("object_id", JsValue.str "bbb")]
      mthEx "aaa" "bbb" { id := "aaa" } { id := "bbb" } "line" "phrase"
      (Or.inl rfl) (Or.inr rfl) rfl rfl rfl rfl rfl rfl rfl (by decide)).2.1⟩

theorem admit_job_frame (s : Searcher) (rid : String) (src mth : List (String × JsValue))
    (nameV : JsValue) (st tt : Text) :
    frameOK s (admit_job s rid src mth nameV st tt) := by
  unfold admit_job Searcher.queue_search
  by_cases h : s.queued.length < s.capacity
  · rw [if_pos h]
    exact Or.inr ⟨rfl, ⟨mkJobT rid src mth nameV st tt, rfl⟩⟩
  · rw [if_neg h]
    exact rfl

theorem check_method_frame (s : Searcher) (received : List (String × JsValue)) (rid : String)
    (src : List (String × JsValue)) (st tt : Text) :
    frameOK s (check_method s received rid src st tt) := by
  unfold check_method
  split
  · split
    · exact Or.inl ⟨rfl, rfl⟩
    · split
      · dsimp only
        split
        · apply admit_job_frame
        · exact Or.inl ⟨rfl, rfl⟩
      · split <;> rfl
  all_goals rfl

theorem resolve_texts_frame (db : Database) (s : Searcher)
    (received : List (String × JsValue)) (rid : String)
    (src tgt : List (String × JsValue)) :
    frameOK s (resolve_texts db s received rid src tgt) := by
  unfold resolve_texts
  cases h1 : jget src "object_id" with
  | none => exact rfl
  | some v1 =>
    cases h2 : jget tgt "object_id" with
    | none => cases v1 <;> exact rfl
    | some v2 =>
      cases v1 with
      | str sid =>
        cases v2 with
        | str tid =>
          dsimp only
          by_cases hemp : (unresolved_ids db sid tid).isEmpty = true
          · rw [if_pos hemp]
            cases h3 : textLookup db sid tid sid with
            | none =>
              cases h4 : textLookup db sid tid tid with
              | none => exact rfl
              | some tt => exact rfl
            | some st =>
              cases h4 : textLookup db sid tid tid with
              | none => exact rfl
              | some tt => exact check_method_frame s received rid src st tt
          · rw [if_neg hemp]
            exact Or.inl ⟨rfl, rfl⟩
        | num a => exact rfl
        | bool a => exact rfl
        | null => exact rfl
        | arr a => exact rfl
        | obj a => exact rfl
      | num a => cases v2 <;> exact rfl
      | bool a => cases v2 <;> exact rfl
      | null => cases v2 <;> exact rfl
      | arr a => cases v2 <;> exact rfl
      | obj a => cases v2 <;> exact rfl

theorem check_units_frame (db : Database) (s : Searcher)
    (received : List (String × JsValue)) (rid : String) (sv tv : JsValue) :
    frameOK s (check_units db s received rid sv tv) := by
  unfold check_units
  cases sv with
  | str a => exact rfl
  | num a => exact rfl
  | bool a => exact rfl
  | null => exact rfl
  | arr a => exact rfl
  | obj src =>
    cases tv with
    | str a => exact rfl
    | num a => exact rfl
    | bool a => exact rfl
    | null => exact rfl
    | arr a => exact rfl
    | obj tgt =>
      dsimp only
      by_cases hemp : (validate_units src "source" ++ validate_units tgt "target").isEmpty = true
      · rw [if_pos hemp]
        exact resolve_texts_frame db s received rid src tgt
      · rw [if_neg hemp]
        exact Or.inl ⟨rfl, rfl⟩

/-- Claim C9 (amended): every outcome of `submit_search` other than a
successful admission leaves the shared queue exactly as it was — every
validation failure is a 400 response with the queue untouched, every
uncaught fault (the unregistered-method-name `KeyError`, the queue-full
`AttributeError`) leaves the queue untouched, and a 201 response is the
only outcome that changes the queue, appending exactly one job. -/
theorem submit_search_queue_frame (db : Database) (searcher : Searcher) (rid : String)
    (received : List (String × JsValue)) :
    frameOK searcher (submit_search db searcher rid received) := by
  unfold submit_search
  dsimp only
  by_cases hmiss : (requireds.filter (fun req => !(jhas received req))).isEmpty = true
  · rw [if_pos hmiss]
    cases h1 : jget received "source" with
    | none => exact rfl
    | some sv =>
      cases h2 : jget received "target" with
      | none => exact rfl
      | some tv => exact check_units_frame db searcher received rid sv tv
  · rw [if_neg hmiss]
    exact Or.inl ⟨rfl, rfl⟩

/-- Counterexample to claim C9 as stated: the unregistered method name
`fakemethod` fails validation rule 5, yet `submit_search` does not return a
400 response — it crashes with a `KeyError` (the queue still untouched). -/
theorem submit_search_validation_crash_counterexample :
    submit_search dbEx schEx "rid9" pBadNameEx =
      Outcome.crash (Fault.keyError "fakemethod") schEx
    ∧ isResponse400 (submit_search dbEx schEx "rid9" pBadNameEx) = false :=
  ⟨rfl, rfl⟩

/-- Claim C1 (code bug): with both texts resolving and an unregistered
method name, `submit_search` indexes `method_requireds[method['name']]`
before any registration check and the lookup raises `KeyError`, so the call
crashes instead of returning the 400 validation error the spec requires. -/
theorem submit_search_unregistered_method_keyerror :
    submit_search dbEx schEx "rid1" pBadNameEx =
      Outcome.crash (Fault.keyError "fakemethod") schEx :=
  rfl

/-- Claim C2 (code bug): on a fully valid submission with the queue at
capacity, the `except queue.Full` handler evaluates `apitess.error.error`
— but only `apitess.errors` is imported, so the handler itself raises
`AttributeError` instead of returning the intended retry-later 500
response; the queue is left unchanged (no partial state). -/
theorem submit_search_queue_full_attribute_error :
    submit_search dbEx schFullEx "rid2" pEx =
      Outcome.crash (Fault.attributeError "apitess.error") schFullEx
    ∧ outSearcher (submit_search dbEx schFullEx "rid2" pEx) = schFullEx :=
  ⟨rfl, rfl⟩

end Apitess
